import Mathlib

/-!
Verification development for the Aether Python SDK (repository `deets`).

Shallow embedding of the two Python packages under `src/`:

* `sdk/python/src/aether/` — `keypair.py`, `transaction.py`, `client.py`,
  `ai.py`, `types.py`;
* `sdks/python/src/aether_sdk/` — `transaction.py`, `builders.py`,
  `types.py`.

Python `bytes` values are modelled as `List Nat` with every element below
256; Python `int` (unbounded, possibly negative) is modelled as `Int`;
Python `str` as Lean `String`.  External cryptographic primitives
(`hashlib.sha256`, PyNaCl Ed25519) are modelled as an explicit parameter
structure `Crypto`, since their internals are not part of the repository.
-/

namespace Aether

/-! ### Hex encoding (models Python `bytes.hex()` / `bytes.fromhex`) -/

/-- One lowercase hex digit, as produced by Python's `bytes.hex()`:
digits `0`-`9` are code points 48-57, digits `a`-`f` are 97-102. -/
def hexDigitChar (n : Nat) : Char :=
  if n < 10 then Char.ofNat (48 + n) else Char.ofNat (87 + n)

/-- The two lowercase hex digits of one byte, high nibble first. -/
def byteHex (b : Nat) : List Char :=
  [hexDigitChar (b / 16), hexDigitChar (b % 16)]

/-- Hex digits of a byte string, in order. -/
def bytesToHexChars : List Nat → List Char
  | [] => []
  | b :: bs => byteHex b ++ bytesToHexChars bs

/-- Models Python `bytes.hex()`: lowercase hex string of a byte string. -/
def bytesToHex (bs : List Nat) : String :=
  ⟨bytesToHexChars bs⟩

/-- Value of one hex digit; Python `bytes.fromhex` accepts both cases. -/
def hexVal (c : Char) : Option Nat :=
  if 48 ≤ c.toNat ∧ c.toNat ≤ 57 then some (c.toNat - 48)
  else if 97 ≤ c.toNat ∧ c.toNat ≤ 102 then some (c.toNat - 87)
  else if 65 ≤ c.toNat ∧ c.toNat ≤ 70 then some (c.toNat - 55)
  else none

/-- Models Python `bytes.fromhex` on a character list: consumes two hex
digits per byte, failing on odd length or a non-hex character (the
failure is the `ValueError` that `Keypair.verify` swallows). -/
def hexCharsToBytes : List Char → Option (List Nat)
  | [] => some []
  | [_] => none
  | c1 :: c2 :: rest => do
      let hi ← hexVal c1
      let lo ← hexVal c2
      let bs ← hexCharsToBytes rest
      pure ((16 * hi + lo) :: bs)

/-- Models Python `bytes.fromhex` on a string. -/
def hexToBytes (s : String) : Option (List Nat) :=
  hexCharsToBytes s.data

/-! ### UTF-8 (models Python `str.encode()`) -/

/-- UTF-8 byte sequence of one code point (Python `str.encode('utf-8')`
applied character by character). -/
def utf8Char (c : Char) : List Nat :=
  let n := c.toNat
  if n < 128 then [n]
  else if n < 2048 then [192 + n / 64, 128 + n % 64]
  else if n < 65536 then
    [224 + n / 4096, 128 + n / 64 % 64, 128 + n % 64]
  else
    [240 + n / 262144, 128 + n / 4096 % 64, 128 + n / 64 % 64, 128 + n % 64]

/-- Models Python `str.encode()`: UTF-8 bytes of a string. -/
def strBytes (s : String) : List Nat :=
  s.data.foldr (fun c acc => utf8Char c ++ acc) []

/-! ### Little-endian fixed-width packing (models `struct.pack`) -/

/-- The `w`-byte little-endian encoding of `n`: byte `i` holds
`n / 256 ^ i % 256`.  Models `struct.pack("<Q", n)` at `w = 8` and
`struct.pack("<I", n)` at `w = 4`, for in-range `n`. -/
def leBytes (w n : Nat) : List Nat :=
  (List.range w).map (fun i => n / 256 ^ i % 256)

/-! ### External cryptographic primitives

`keypair.py` and `transaction.py` call `hashlib.sha256` and the PyNaCl
Ed25519 operations.  These live outside the repository, so they are
modelled as an explicit parameter record; the repository's own code (hex
wrapping, address truncation, which bytes get signed) is embedded
concretely on top of it.  `edVerify` returning `false` models both
"library raised" and "library rejected", matching the `try/except` in
`Keypair.verify`. -/

structure Crypto where
  sha256 : List Nat → List Nat
  derivePub : List Nat → List Nat
  edSign : List Nat → List Nat → List Nat
  edVerify : List Nat → List Nat → List Nat → Bool

/-! ### `aether/keypair.py` -/

structure Keypair where
  secret : List Nat
  public : List Nat
  address : String
deriving DecidableEq

/-- Models `Keypair.public_key_to_address`: `0x` + hex of the last 20
bytes of `sha256(public_key)`. -/
def publicKeyToAddress (c : Crypto) (pk : List Nat) : String :=
  let h := c.sha256 pk
  "0x" ++ bytesToHex (h.drop (h.length - 20))

/-- Models `Keypair.__init__` via `from_secret_key`: the public key is
derived from the secret key by the Ed25519 library, the address from the
public key.  `generate`, `from_secret_key`, `from_secret_key_hex` and
`from_seed` all construct keypairs of this shape. -/
def mkKeypair (c : Crypto) (sk : List Nat) : Keypair :=
  { secret := sk
    public := c.derivePub sk
    address := publicKeyToAddress c (c.derivePub sk) }

/-- Models `Keypair.from_seed`: secret key = `sha256(seed.encode())`. -/
def keypairFromSeed (c : Crypto) (seed : String) : Keypair :=
  mkKeypair c (c.sha256 (strBytes seed))

/-- Models `Keypair.sign`: Ed25519 signature bytes, hex encoded. -/
def keypairSign (c : Crypto) (kp : Keypair) (message : List Nat) : String :=
  bytesToHex (c.edSign kp.secret message)

/-- Models `Keypair.verify`: decode the hex signature and ask the
library; any failure (bad hex, bad signature) yields `false` via the
`try/except`. -/
def keypairVerify (c : Crypto) (signature : String) (message : List Nat)
    (publicKey : List Nat) : Bool :=
  match hexToBytes signature with
  | none => false
  | some sigBytes => c.edVerify publicKey message sigBytes

/-! ### `aether/types.py` and `aether/transaction.py` -/

/-- Models the `Transaction` dataclass of `aether/types.py`. -/
structure ATransaction where
  from_addr : String
  toAddr : String
  value : Int
  data : Option (List Nat) := none
  nonce : Int := 0
  signature : Option String := none
  hash : Option String := none
deriving DecidableEq

/-- Models the mutable field state of `TransactionBuilder.__init__`;
the fluent setters each replace one field with `some _`. -/
structure TransactionBuilder where
  bfrom : Option String := none
  bto : Option String := none
  bvalue : Option Int := none
  bdata : Option (List Nat) := none
  bnonce : Option Int := none
deriving DecidableEq

def TransactionBuilder.from_addr (b : TransactionBuilder) (a : String) :
    TransactionBuilder := { b with bfrom := some a }

def TransactionBuilder.toAddr (b : TransactionBuilder) (a : String) :
    TransactionBuilder := { b with bto := some a }

def TransactionBuilder.value (b : TransactionBuilder) (v : Int) :
    TransactionBuilder := { b with bvalue := some v }

def TransactionBuilder.data (b : TransactionBuilder) (d : List Nat) :
    TransactionBuilder := { b with bdata := some d }

def TransactionBuilder.nonce (b : TransactionBuilder) (n : Int) :
    TransactionBuilder := { b with bnonce := some n }

/-- The four `ValueError`s raised by `TransactionBuilder.build`, one per
missing required field; `requiredFieldName` carries the field named in
each message (`"Transaction requires from address"`, ...). -/
inductive BuildError
  | missingFrom
  | missingTo
  | missingValue
  | missingNonce
deriving DecidableEq

def requiredFieldName : BuildError → String
  | .missingFrom => "from address"
  | .missingTo => "to address"
  | .missingValue => "value"
  | .missingNonce => "nonce"

/-- `e` names a field that really is unset on `b`. -/
def errorNamesUnsetField (b : TransactionBuilder) : BuildError → Prop
  | .missingFrom => b.bfrom = none
  | .missingTo => b.bto = none
  | .missingValue => b.bvalue = none
  | .missingNonce => b.bnonce = none

/-- Models `TransactionBuilder.build`: each required field is tested
against `None` in source order; a field holding `Some 0` passes. -/
def TransactionBuilder.build (b : TransactionBuilder) :
    Except BuildError ATransaction :=
  match b.bfrom with
  | none => .error .missingFrom
  | some f =>
    match b.bto with
    | none => .error .missingTo
    | some t =>
      match b.bvalue with
      | none => .error .missingValue
      | some v =>
        match b.bnonce with
        | none => .error .missingNonce
        | some n =>
          .ok { from_addr := f, toAddr := t, value := v, data := b.bdata,
                nonce := n }

/-- Models `TransactionBuilder._serialize`: UTF-8 of the address strings,
`struct.pack("<Q", value)`, raw data bytes (`tx.data or b""`),
`struct.pack("<I", nonce)`, concatenated.  `struct.pack` raises
`struct.error` outside `[0, 2^64)` resp. `[0, 2^32)`, modelled as
`none`. -/
def serialize (tx : ATransaction) : Option (List Nat) :=
  if 0 ≤ tx.value ∧ tx.value < 2 ^ 64 ∧ 0 ≤ tx.nonce ∧ tx.nonce < 2 ^ 32 then
    some (strBytes tx.from_addr ++ strBytes tx.toAddr
      ++ leBytes 8 tx.value.toNat ++ tx.data.getD []
      ++ leBytes 4 tx.nonce.toNat)
  else none

/-- The errors `TransactionBuilder.sign` can propagate: a `build`
failure, or a `struct.error` from `_serialize`. -/
inductive SignError
  | incomplete (e : BuildError)
  | packError
deriving DecidableEq

/-- Models `TransactionBuilder.sign`: build, serialize, sha256-digest,
sign the digest bytes, then attach `signature` and `0x`-hex `hash` to
the transaction. -/
def TransactionBuilder.sign (c : Crypto) (b : TransactionBuilder)
    (kp : Keypair) : Except SignError ATransaction :=
  match b.build with
  | .error e => .error (.incomplete e)
  | .ok tx =>
    match serialize tx with
    | none => .error .packError
    | some txBytes =>
      let hashBytes := c.sha256 txBytes
      .ok { tx with
            signature := some (keypairSign c kp hashBytes)
            hash := some ("0x" ++ bytesToHex hashBytes) }

/-! ### `aether_sdk/types.py` and `aether_sdk/transaction.py` -/

/-- Models the field state of the `aether_sdk` `Transaction` dataclass
(both the arguments passed to the constructor and the value after
`__post_init__`). -/
structure SdkTransaction where
  nonce : Int
  sender : String
  sender_public_key : String
  recipient : String
  amount : Int
  fee : Int
  gas_limit : Int
  memo : Option String
  signature : String
  reads : List String := []
  writes : List String := []
deriving DecidableEq

/-- Models Python `value.startswith("0x")`: the first two characters are
`0` and `x`. -/
def startsWith0x (s : String) : Bool :=
  match s.data with
  | '0' :: 'x' :: _ => true
  | _ => false

/-- Models `ensure_hex`: `ValueError` unless the value starts with
`"0x"`. -/
def ensureHex (value : String) (fieldName : String) : Except String Unit :=
  if startsWith0x value then .ok ()
  else .error (fieldName ++ " must be a hex string")

/-- Models `ensure_positive_int`: `ValueError` when `value <= 0`. -/
def ensurePositiveInt (value : Int) (fieldName : String) :
    Except String Unit :=
  if value ≤ 0 then .error (fieldName ++ " must be positive") else .ok ()

/-- Sequencing of one validation statement of `__post_init__`: the first
raised `ValueError` aborts construction. -/
def seqCheck {α : Type} (check : Except String Unit)
    (rest : Except String α) : Except String α :=
  match check with
  | .error e => .error e
  | .ok _ => rest

/-- Models constructing an `aether_sdk` `Transaction`, i.e. the dataclass
constructor followed by `__post_init__`: hex checks, positivity checks
(`nonce + 1` so that a zero nonce passes), the signature length check,
and the `writes` default of `[recipient]`, in source order. -/
def mkTransaction (t : SdkTransaction) : Except String SdkTransaction :=
  seqCheck (ensureHex t.sender "sender") <|
  seqCheck (ensureHex t.sender_public_key "sender_public_key") <|
  seqCheck (ensureHex t.recipient "recipient") <|
  seqCheck (ensureHex t.signature "signature") <|
  seqCheck (ensurePositiveInt t.amount "amount") <|
  seqCheck (ensurePositiveInt t.fee "fee") <|
  seqCheck (ensurePositiveInt t.gas_limit "gas_limit") <|
  seqCheck (ensurePositiveInt (t.nonce + 1) "nonce + 1") <|
  if t.signature.length < 66 then
    .error "signature must be at least 64 bytes (hex)"
  else if t.writes = [] then
    .ok { t with writes := t.writes ++ [t.recipient] }
  else
    .ok t

/-! ### `aether_sdk/builders.py` (`TransferBuilder`) -/

/-- Models the field state of `TransferBuilder` after `__post_init__`
(`fee` and `gasLimit` hold the config defaults unless overridden). -/
structure TransferBuilder where
  recipient : Option String := none
  amount : Option Int := none
  memo : Option String := none
  fee : Int
  gasLimit : Int
deriving DecidableEq

/-- Models `TransferBuilder.build`: `ValueError` naming the unset field,
then the `Transaction` constructor (with empty `reads`/`writes`). -/
def TransferBuilder.build (tb : TransferBuilder) (sender : String)
    (senderPublicKey : String) (signature : String) (nonce : Int) :
    Except String SdkTransaction :=
  match tb.recipient with
  | none => .error "recipient not set"
  | some r =>
    match tb.amount with
    | none => .error "amount not set"
    | some a =>
      mkTransaction
        { nonce := nonce, sender := sender,
          sender_public_key := senderPublicKey, recipient := r,
          amount := a, fee := tb.fee, gas_limit := tb.gasLimit,
          memo := tb.memo, signature := signature }

/-! ### `aether/types.py`: jobs, receipts, transaction receipts -/

/-- Models the `JobStatus` literal type. -/
inductive JobStatus
  | pending
  | assigned
  | computing
  | completed
  | challenged
  | settled
deriving DecidableEq

/-- Models the `VerifiableComputeReceipt` dataclass. -/
structure VerifiableComputeReceipt where
  job_id : String
  provider : String
  result : List Nat
  execution_trace : String
  kzg_commitments : List (List Nat)
  tee_attestation : List Nat
  timestamp : Int
deriving DecidableEq

/-- Models the `AIJob` dataclass. -/
structure AIJob where
  id : String
  creator : String
  model_hash : String
  input_data : List Nat
  aic_locked : Int
  status : JobStatus
  provider : Option String := none
  result : Option (List Nat) := none
  vcr : Option VerifiableComputeReceipt := none
deriving DecidableEq

/-- Models the `TransactionReceipt` dataclass (the `logs` dictionaries
are modelled as association lists; no claim inspects them). -/
structure TransactionReceipt where
  transaction_hash : String
  block_hash : String
  block_slot : Int
  from_addr : String
  toAddr : String
  success : Bool
  gas_used : Int
  logs : List (List (String × String)) := []
deriving DecidableEq

/-! ### The polling waits of `client.py` and `ai.py`

Both waits are loops of the shape

  start = now()
  while now() - start < timeout: probe; <checks>; sleep(poll_interval)
  raise TimeoutError

Time is modelled discretely: iteration `k` runs with elapsed time
`k * pollInterval` (the probe itself is instantaneous, each `sleep`
advances the clock by `pollInterval`).  A probe is a function from the
iteration index to what the RPC returned.  The loop is embedded with an
explicit iteration bound `fuel`; the entry points pass `fuel = timeout`,
which can only be exhausted while the `while` guard still holds if
`pollInterval = 0` (every theorem below assumes `0 < pollInterval`, under
which the `fuel = 0` branch is unreachable and the embedding agrees with
the unbounded loop). -/

/-- The distinct exception kinds raised by the two waits:
`TimeoutError` after the loop, `ValueError "Job ... not found"` and
`ValueError "Job ... is being challenged"` inside the job loop. -/
inductive WaitError
  | timeout
  | jobNotFound
  | challenged
deriving DecidableEq

/-- Models `AetherClient.wait_for_transaction`'s loop body: a `None`
receipt just polls again; a receipt is returned as-is. -/
def waitTxAux (probe : Nat → Option TransactionReceipt) (t p : Nat) :
    Nat → Nat → Except WaitError TransactionReceipt
  | fuel, k =>
    if k * p < t then
      match probe k with
      | some r => .ok r
      | none =>
        match fuel with
        | 0 => .error .timeout
        | f + 1 => waitTxAux probe t p f (k + 1)
    else .error .timeout

/-- Models `AetherClient.wait_for_transaction`. -/
def wait_for_transaction (probe : Nat → Option TransactionReceipt)
    (t p : Nat) : Except WaitError TransactionReceipt :=
  waitTxAux probe t p t 0

/-- Models `job.status in ["completed", "settled"]`. -/
def statusDone : JobStatus → Bool
  | .completed => true
  | .settled => true
  | _ => false

/-- Models `AIJobHelper.wait_for_job_completion`'s loop body: a `None`
job (`get_job` returned nothing or swallowed an exception) raises
`ValueError` at once; `completed`/`settled` returns the job;
`challenged` raises `ValueError`; anything else polls again. -/
def waitJobAux (probe : Nat → Option AIJob) (t p : Nat) :
    Nat → Nat → Except WaitError AIJob
  | fuel, k =>
    if k * p < t then
      match probe k with
      | none => .error .jobNotFound
      | some job =>
        if statusDone job.status then .ok job
        else if job.status = .challenged then .error .challenged
        else
          match fuel with
          | 0 => .error .timeout
          | f + 1 => waitJobAux probe t p f (k + 1)
    else .error .timeout

/-- Models `AIJobHelper.wait_for_job_completion`. -/
def wait_for_job_completion (probe : Nat → Option AIJob) (t p : Nat) :
    Except WaitError AIJob :=
  waitJobAux probe t p t 0

/-! ### `AIJobHelper.verify_vcr`

The method body is a single statement:
`return await self.client._call("ai_verifyVCR", [vcr.__dict__])`.
It is modelled together with the RPC interaction it causes: the result of
the external verifier is an oracle, and the value returned records the
list of RPC methods invoked alongside the oracle's answer. -/

def verify_vcr {α : Type} (oracle : VerifiableComputeReceipt → α)
    (vcr : VerifiableComputeReceipt) : List String × α :=
  (["ai_verifyVCR"], oracle vcr)

/-! ### `aether_sdk/transaction.py`: `Transaction.hash`

`Transaction.hash` serializes a payload dict with
`json.dumps(payload, sort_keys=True)` (default separators `", "` and
`": "`), where `amount` and `fee` are pre-converted with `str()`, then
digests it with sha256 and `0x`-hex-encodes the digest.  The JSON
rendering is embedded below for the value shapes the payload contains:
strings, `None`, integers, and lists of strings.  JSON string escaping
is the identity on the characters the SDK uses (hex strings, plain
memos); strings containing characters `json.dumps` would escape are
outside this model. -/

/-- A JSON string literal (no escaping needed for the SDK's inputs). -/
def jsonStr (s : String) : String := "\"" ++ s ++ "\""

/-- Join with `json.dumps`' default item separator `", "`. -/
def jsonJoin : List String → String
  | [] => ""
  | [x] => x
  | x :: xs => x ++ ", " ++ jsonJoin xs

/-- A JSON array of strings, as `json.dumps` renders a `List[str]`. -/
def jsonStrList (xs : List String) : String :=
  "[" ++ jsonJoin (xs.map jsonStr) ++ "]"

def digitChar (n : Nat) : Char := Char.ofNat (48 + n)

/-- Decimal digits of `n`, most significant first; `fuel` bounds the
recursion depth and is never exhausted when it exceeds `n`. -/
def natDecimalAux : Nat → Nat → List Char
  | 0, _ => []
  | fuel + 1, n =>
    if n < 10 then [digitChar n]
    else natDecimalAux fuel (n / 10) ++ [digitChar (n % 10)]

/-- Decimal rendering of a natural number. -/
def natDecimal (n : Nat) : String := ⟨natDecimalAux (n + 1) n⟩

/-- Models Python `str(i)` on an `int` (also how `json.dumps` renders an
integer). -/
def intDecimal (i : Int) : String :=
  if i < 0 then "-" ++ natDecimal (-i).toNat else natDecimal i.toNat

/-- `json.dumps` rendering of an optional string (`null` for `None`). -/
def jsonOptStr : Option String → String
  | none => "null"
  | some s => jsonStr s

/-- Models the payload serialization inside `Transaction.hash`:
`json.dumps(payload, sort_keys=True)` — keys in sorted order, `amount`
and `fee` as quoted decimal strings (`str(...)` applied first), `nonce`
and `gas_limit` as bare decimal numbers. -/
def sdkHashPayload (t : SdkTransaction) : String :=
  "\x7b" ++ jsonStr "amount" ++ ": " ++ jsonStr (intDecimal t.amount)
  ++ ", " ++ jsonStr "fee" ++ ": " ++ jsonStr (intDecimal t.fee)
  ++ ", " ++ jsonStr "gas_limit" ++ ": " ++ intDecimal t.gas_limit
  ++ ", " ++ jsonStr "memo" ++ ": " ++ jsonOptStr t.memo
  ++ ", " ++ jsonStr "nonce" ++ ": " ++ intDecimal t.nonce
  ++ ", " ++ jsonStr "reads" ++ ": " ++ jsonStrList t.reads
  ++ ", " ++ jsonStr "recipient" ++ ": " ++ jsonStr t.recipient
  ++ ", " ++ jsonStr "sender" ++ ": " ++ jsonStr t.sender
  ++ ", " ++ jsonStr "sender_public_key" ++ ": "
  ++ jsonStr t.sender_public_key
  ++ ", " ++ jsonStr "writes" ++ ": " ++ jsonStrList t.writes
  ++ "\x7d"

/-- Models `Transaction.hash`: `0x` + hex of sha256 of the UTF-8 bytes
of the sorted-key JSON payload. -/
def SdkTransaction.hash (c : Crypto) (t : SdkTransaction) : String :=
  "0x" ++ bytesToHex (c.sha256 (strBytes (sdkHashPayload t)))

/-! ### Concrete fixtures

Concrete instances used to evaluate the embedded code on explicit
inputs: a toy instantiation of the external crypto record (the
repository's own logic — hex wrapping, digest plumbing, field layout —
is what is being exercised; the toy scheme merely satisfies the
library's documented contract), and small transactions, builders, jobs
and receipts. -/

/-- A concrete `Crypto` instance satisfying the external libraries'
contract (`edVerify` accepts exactly what `edSign` produced, all output
values are bytes). -/
def toyCrypto : Crypto :=
  { sha256 := fun bs => [bs.length % 256, (bs.foldr (· + ·) 0) % 256]
    derivePub := fun sk => sk.map (fun x => x % 256)
    edSign := fun sk m => sk.map (fun x => x % 256) ++ m.map (fun x => x % 256)
    edVerify := fun pk m s => decide (s = pk ++ m.map (fun x => x % 256)) }

def toyKeypair : Keypair := mkKeypair toyCrypto [1, 2, 3]

def fixtureCompletedJob : AIJob :=
  { id := "0xjob1", creator := "0xc1", model_hash := "0xm1",
    input_data := [1, 2], aic_locked := 5, status := .completed }

def fixtureComputingJob : AIJob :=
  { id := "0xjob1", creator := "0xc1", model_hash := "0xm1",
    input_data := [1, 2], aic_locked := 5, status := .computing }

def fixtureChallengedJob : AIJob :=
  { id := "0xjob1", creator := "0xc1", model_hash := "0xm1",
    input_data := [1, 2], aic_locked := 5, status := .challenged }

def fixtureVcr : VerifiableComputeReceipt :=
  { job_id := "0xother", provider := "0xp1", result := [9],
    execution_trace := "0xt1", kzg_commitments := [], tee_attestation := [],
    timestamp := 0 }

def fixtureBuilder : TransactionBuilder :=
  { bfrom := some "0xab", bto := some "0xcd", bvalue := some 5,
    bnonce := some 0 }

def fallbackTx : ATransaction :=
  { from_addr := "", toAddr := "", value := 0 }

/-- The transaction `TransactionBuilder.sign` emits for `fixtureBuilder`
under the toy crypto instance. -/
def fixtureSignedTx : ATransaction :=
  match TransactionBuilder.sign toyCrypto fixtureBuilder toyKeypair with
  | .ok tx => tx
  | .error _ => fallbackTx

def sdkSig66 : String := "0x" ++ bytesToHex (List.replicate 32 188)

def sdkArgsZeroAmount : SdkTransaction :=
  { nonce := 0, sender := "0x1111", sender_public_key := "0xa1a1",
    recipient := "0x8b8b", amount := 0, fee := 2000000,
    gas_limit := 500000, memo := none, signature := sdkSig66 }

def sdkArgsNegAmount : SdkTransaction :=
  { sdkArgsZeroAmount with amount := -5 }

def sdkArgsValid : SdkTransaction :=
  { sdkArgsZeroAmount with amount := 1000000 }

/-- The transaction the `aether_sdk` constructor yields for
`sdkArgsValid`. -/
def sdkTxValid : SdkTransaction :=
  match mkTransaction sdkArgsValid with
  | .ok tx => tx
  | .error _ => sdkArgsValid

def fixtureTransferBuilder : TransferBuilder :=
  { fee := 2000000, gasLimit := 500000 }

def sdkTxAmount5 : SdkTransaction :=
  { nonce := 0, sender := "0x1111", sender_public_key := "0xa1a1",
    recipient := "0x8b8b", amount := 5, fee := 2, gas_limit := 3,
    memo := none, signature := sdkSig66, reads := [],
    writes := ["0x8b8b"] }

def sdkTxAmount1000 : SdkTransaction :=
  { sdkTxAmount5 with amount := 1000 }

/-- The result shape of the external `ai_verifyVCR` RPC
(`{valid, kzg_valid, tee_valid}`). -/
structure VerifyResult where
  valid : Bool
  kzg_valid : Bool
  tee_valid : Bool
deriving DecidableEq

/-- An external verifier stub that accepts every receipt. -/
def acceptingVerifier : VerifiableComputeReceipt → VerifyResult :=
  fun _ => { valid := true, kzg_valid := true, tee_valid := true }

/-! ### Helper lemmas -/

theorem hexVal_hexDigitChar (n : Nat) (h : n < 16) :
    hexVal (hexDigitChar n) = some n := by
  interval_cases n <;> decide

theorem hexCharsToBytes_bytesToHexChars (bs : List Nat)
    (h : ∀ b ∈ bs, b < 256) :
    hexCharsToBytes (bytesToHexChars bs) = some bs := by
  induction bs with
  | nil => rfl
  | cons b bs ih =>
      have hb : b < 256 := h b (List.mem_cons_self b bs)
      have hhi : b / 16 < 16 := by omega
      have hlo : b % 16 < 16 := by omega
      have hrest : hexCharsToBytes (bytesToHexChars bs) = some bs :=
        ih (fun x hx => h x (List.mem_cons_of_mem b hx))
      have hcons :
          bytesToHexChars (b :: bs)
            = hexDigitChar (b / 16) :: hexDigitChar (b % 16)
                :: bytesToHexChars bs := rfl
      have hstep :
          hexCharsToBytes
              (hexDigitChar (b / 16) :: hexDigitChar (b % 16)
                :: bytesToHexChars bs)
            = (hexVal (hexDigitChar (b / 16))).bind fun hi =>
                (hexVal (hexDigitChar (b % 16))).bind fun lo =>
                  (hexCharsToBytes (bytesToHexChars bs)).bind fun tl =>
                    some ((16 * hi + lo) :: tl) := rfl
      rw [hcons, hstep, hexVal_hexDigitChar _ hhi, hexVal_hexDigitChar _ hlo,
        hrest]
      simp only [Option.bind, Option.some.injEq, List.cons.injEq]
      exact ⟨by omega, trivial⟩

/-- Round-trip of the wrapper's hex layer: decoding the hex emitted for a
genuine byte string recovers it. -/
theorem hexToBytes_bytesToHex (bs : List Nat) (h : ∀ b ∈ bs, b < 256) :
    hexToBytes (bytesToHex bs) = some bs :=
  hexCharsToBytes_bytesToHexChars bs h

theorem leBytes_length (w n : Nat) : (leBytes w n).length = w := by
  simp [leBytes]

theorem leBytes_getD (w n i : Nat) (h : i < w) :
    (leBytes w n).getD i 0 = n / 256 ^ i % 256 := by
  have hlen : i < (leBytes w n).length := by
    rw [leBytes_length]; exact h
  rw [List.getD_eq_getElem _ _ hlen]
  simp [leBytes]

/-- One unfolding of the transaction-wait loop with fuel left. -/
theorem waitTxAux_succ (probe : Nat → Option TransactionReceipt)
    (t p f k : Nat) :
    waitTxAux probe t p (f + 1) k
      = if k * p < t then
          match probe k with
          | some r => .ok r
          | none => waitTxAux probe t p f (k + 1)
        else .error .timeout := by rw [waitTxAux]

/-- One unfolding of the transaction-wait loop with no fuel left. -/
theorem waitTxAux_zero (probe : Nat → Option TransactionReceipt)
    (t p k : Nat) :
    waitTxAux probe t p 0 k
      = if k * p < t then
          match probe k with
          | some r => .ok r
          | none => .error .timeout
        else .error .timeout := by rw [waitTxAux]

/-- One unfolding of the job-wait loop with fuel left. -/
theorem waitJobAux_succ (probe : Nat → Option AIJob) (t p f k : Nat) :
    waitJobAux probe t p (f + 1) k
      = if k * p < t then
          match probe k with
          | none => .error .jobNotFound
          | some job =>
            if statusDone job.status then .ok job
            else if job.status = .challenged then .error .challenged
            else waitJobAux probe t p f (k + 1)
        else .error .timeout := by rw [waitJobAux]

/-- One unfolding of the job-wait loop with no fuel left. -/
theorem waitJobAux_zero (probe : Nat → Option AIJob) (t p k : Nat) :
    waitJobAux probe t p 0 k
      = if k * p < t then
          match probe k with
          | none => .error .jobNotFound
          | some job =>
            if statusDone job.status then .ok job
            else if job.status = .challenged then .error .challenged
            else .error .timeout
        else .error .timeout := by rw [waitJobAux]

/-- Under an everywhere-`None` probe the transaction wait can only end in
`TimeoutError`, whatever the fuel and starting iteration. -/
theorem waitTxAux_pending (probe : Nat → Option TransactionReceipt)
    (t p : Nat) (hall : ∀ k, probe k = none) :
    ∀ fuel k, waitTxAux probe t p fuel k = .error .timeout := by
  intro fuel
  induction fuel with
  | zero =>
      intro k
      rw [waitTxAux_zero]
      split
      · rw [hall k]
      · rfl
  | succ f ih =>
      intro k
      rw [waitTxAux_succ]
      split
      · rw [hall k]
        exact ih (k + 1)
      · rfl

/-- Under a probe that always reports a live, non-terminal,
non-challenged job, the job wait can only end in `TimeoutError`. -/
theorem waitJobAux_pending (probe : Nat → Option AIJob) (t p : Nat)
    (hall : ∀ k, ∃ job, probe k = some job ∧ statusDone job.status = false
        ∧ job.status ≠ .challenged) :
    ∀ fuel k, waitJobAux probe t p fuel k = .error .timeout := by
  intro fuel
  induction fuel with
  | zero =>
      intro k
      obtain ⟨job, hj, hdone, hch⟩ := hall k
      rw [waitJobAux_zero]
      split
      · rw [hj]
        simp [hdone, hch]
      · rfl
  | succ f ih =>
      intro k
      obtain ⟨job, hj, hdone, hch⟩ := hall k
      rw [waitJobAux_succ]
      split
      · rw [hj]
        simp only [hdone, hch, Bool.false_eq_true, if_false]
        exact ih (k + 1)
      · rfl

/-- If every probe strictly before iteration `k + j` reports a live,
non-terminal, non-challenged job and probe `k + j` reports a challenged
job while the deadline has not passed, the job wait started at iteration
`k` with at least `j` units of fuel raises the challenged error. -/
theorem waitJobAux_first_challenged (probe : Nat → Option AIJob)
    (t p : Nat) :
    ∀ j fuel k, j ≤ fuel → (k + j) * p < t →
      (∀ i, k ≤ i → i < k + j → ∃ jb, probe i = some jb
          ∧ statusDone jb.status = false ∧ jb.status ≠ .challenged) →
      ∀ job, probe (k + j) = some job → job.status = .challenged →
      waitJobAux probe t p fuel k = .error .challenged := by
  intro j
  induction j with
  | zero =>
      intro fuel k _ hkt _ job hpj hch
      have hk : k * p < t := by simpa using hkt
      have hpj0 : probe k = some job := by simpa using hpj
      have hdone : statusDone job.status = false := by
        rw [hch]; rfl
      cases fuel with
      | zero =>
          rw [waitJobAux_zero, if_pos hk, hpj0]
          simp [hdone, hch, statusDone]
      | succ f =>
          rw [waitJobAux_succ, if_pos hk, hpj0]
          simp [hdone, hch, statusDone]
  | succ j ih =>
      intro fuel k hjf hkt hmid job hpj hch
      obtain ⟨jb, hjb, hdone, hnch⟩ := hmid k (le_refl k) (by omega)
      cases fuel with
      | zero => omega
      | succ f =>
          have hkp : k * p < t := by
            have hle : k * p ≤ (k + (j + 1)) * p :=
              Nat.mul_le_mul_right p (by omega)
            omega
          rw [waitJobAux_succ, if_pos hkp, hjb]
          simp only [hdone, hnch, Bool.false_eq_true, if_false]
          have heq : k + 1 + j = k + (j + 1) := by omega
          refine ih f (k + 1) (by omega) (by rw [heq]; exact hkt) ?_ job
            (by rw [heq]; exact hpj) hch
          intro i hi hi2
          exact hmid i (by omega) (by omega)

/-- `_serialize` reads none of `signature`/`hash`. -/
theorem serialize_ignores_sig_hash (tx : ATransaction)
    (s h s2 h2 : Option String) :
    serialize { tx with signature := s, hash := h }
      = serialize { tx with signature := s2, hash := h2 } := rfl

/-- A check chain that constructed a value passed its first check. -/
theorem seqCheck_ok {α : Type} (c : Except String Unit)
    (r : Except String α) (a : α) (h : seqCheck c r = .ok a) : r = .ok a := by
  unfold seqCheck at h
  cases c with
  | error e => simp at h
  | ok u => exact h

/-- A check chain headed by `ensure_positive_int` that constructed a
value saw a strictly positive integer. -/
theorem seqCheck_ensurePositive {α : Type} (v : Int) (s : String)
    (r : Except String α) (a : α)
    (h : seqCheck (ensurePositiveInt v s) r = .ok a) :
    0 < v ∧ r = .ok a := by
  unfold seqCheck ensurePositiveInt at h
  by_cases hv : v ≤ 0
  · rw [if_pos hv] at h
    simp at h
  · rw [if_neg hv] at h
    exact ⟨by omega, h⟩

/-- Inversion of a successful `aether_sdk` `Transaction` construction:
amount, fee and gas limit were strictly positive, and the resulting
`writes` list is non-empty — `[recipient]` when it was empty on input. -/
theorem mkTransaction_ok_inv (a tx : SdkTransaction)
    (h : mkTransaction a = .ok tx) :
    0 < a.amount ∧ 0 < a.fee ∧ 0 < a.gas_limit ∧ tx.writes ≠ []
      ∧ (a.writes = [] → tx.writes = [a.recipient]) := by
  unfold mkTransaction at h
  have h1 := seqCheck_ok _ _ _ h
  have h2 := seqCheck_ok _ _ _ h1
  have h3 := seqCheck_ok _ _ _ h2
  have h4 := seqCheck_ok _ _ _ h3
  obtain ⟨hamt, h5⟩ := seqCheck_ensurePositive _ _ _ _ h4
  obtain ⟨hfee, h6⟩ := seqCheck_ensurePositive _ _ _ _ h5
  obtain ⟨hgas, h7⟩ := seqCheck_ensurePositive _ _ _ _ h6
  obtain ⟨-, h8⟩ := seqCheck_ensurePositive _ _ _ _ h7
  split_ifs at h8 with hsig hw
  · simp only [Except.ok.injEq] at h8
    subst h8
    exact ⟨hamt, hfee, hgas, by simp [hw], fun _ => by simp [hw]⟩
  · simp only [Except.ok.injEq] at h8
    subst h8
    exact ⟨hamt, hfee, hgas, hw, fun h2 => absurd h2 hw⟩

theorem natDecimalAux_length_pos (fuel n : Nat) (h : 0 < fuel) :
    0 < (natDecimalAux fuel n).length := by
  cases fuel with
  | zero => omega
  | succ f =>
      rw [natDecimalAux]
      split
      · simp
      · simp

/-- A natural number below 10 renders as a single decimal digit. -/
theorem natDecimal_length_one (n : Nat) (h : n < 10) :
    (natDecimal n).length = 1 := by
  have haux : natDecimalAux (n + 1) n = [digitChar n] := by
    rw [natDecimalAux, if_pos h]
  show (natDecimalAux (n + 1) n).length = 1
  rw [haux]
  rfl

/-- A natural number of 10 or more renders as at least two decimal
digits: the decimal rendering has no fixed width. -/
theorem natDecimal_length_ge_two (n : Nat) (h : 10 ≤ n) :
    2 ≤ (natDecimal n).length := by
  have haux : natDecimalAux (n + 1) n
      = natDecimalAux n (n / 10) ++ [digitChar (n % 10)] := by
    rw [natDecimalAux, if_neg (by omega)]
  show 2 ≤ (natDecimalAux (n + 1) n).length
  rw [haux]
  have hpos : 0 < (natDecimalAux n (n / 10)).length :=
    natDecimalAux_length_pos n (n / 10) (by omega)
  simp only [List.length_append, List.length_singleton]
  omega

/-! ### Claims -/

set_option maxRecDepth 8000 in
/-- C1 counterexample: in the cited `aether_sdk` `Transaction.hash`
codec, the amount field of two valid transactions differing only in
amount (5 versus 1000) is serialized as the decimal text `"5"` versus
`"1000"` — one character versus four, shifting the whole payload by
three characters — so that codec does not encode integer fields in any
fixed-width (or endianness-based, or uniform) form. -/
theorem claim1_counterexample :
    sdkHashPayload sdkTxAmount5
      = "\x7b\"amount\": \"5\", \"fee\": \"2\", \"gas_limit\": 3, \"memo\": null, \"nonce\": 0, \"reads\": [], \"recipient\": \"0x8b8b\", \"sender\": \"0x1111\", \"sender_public_key\": \"0xa1a1\", \"writes\": [\"0x8b8b\"]\x7d"
    ∧ sdkHashPayload sdkTxAmount1000
      = "\x7b\"amount\": \"1000\", \"fee\": \"2\", \"gas_limit\": 3, \"memo\": null, \"nonce\": 0, \"reads\": [], \"recipient\": \"0x8b8b\", \"sender\": \"0x1111\", \"sender_public_key\": \"0xa1a1\", \"writes\": [\"0x8b8b\"]\x7d"
    ∧ (sdkHashPayload sdkTxAmount5).length + 3
        = (sdkHashPayload sdkTxAmount1000).length :=
  ⟨rfl, rfl, by decide⟩

/-- C1 amended: the two cited codecs encode integers differently.  The
`aether` reference codec (`TransactionBuilder._serialize`) encodes its
integer fields little-endian fixed-width — amount (`value`) as 8 bytes
and nonce as 4 bytes, byte `i` holding `n / 256 ^ i % 256` — and is a
pure function of the five payload fields, unaffected by
`signature`/`hash`.  The `aether_sdk` `Transaction.hash` codec instead
serializes a sorted-key JSON text in which amount and fee appear as
quoted decimal strings and nonce and gas limit as bare decimal numbers
— variable-width (one character below 10, two or more from 10 up), with
no endianness — while still being a pure, repeatable function of the
fields excluding `signature`. -/
theorem claim1_two_codecs (tx : ATransaction) (c : Crypto)
    (t : SdkTransaction)
    (hv0 : 0 ≤ tx.value) (hv : tx.value < 2 ^ 64)
    (hn0 : 0 ≤ tx.nonce) (hn : tx.nonce < 2 ^ 32) :
    serialize tx
      = some (strBytes tx.from_addr ++ strBytes tx.toAddr
          ++ leBytes 8 tx.value.toNat ++ tx.data.getD []
          ++ leBytes 4 tx.nonce.toNat)
    ∧ (leBytes 8 tx.value.toNat).length = 8
    ∧ (leBytes 4 tx.nonce.toNat).length = 4
    ∧ (∀ i, i < 8 → (leBytes 8 tx.value.toNat).getD i 0
        = tx.value.toNat / 256 ^ i % 256)
    ∧ (∀ i, i < 4 → (leBytes 4 tx.nonce.toNat).getD i 0
        = tx.nonce.toNat / 256 ^ i % 256)
    ∧ (∀ s h s2 h2, serialize { tx with signature := s, hash := h }
        = serialize { tx with signature := s2, hash := h2 })
    ∧ sdkHashPayload t
        = "\x7b" ++ jsonStr "amount" ++ ": " ++ jsonStr (intDecimal t.amount)
          ++ ", " ++ jsonStr "fee" ++ ": " ++ jsonStr (intDecimal t.fee)
          ++ ", " ++ jsonStr "gas_limit" ++ ": " ++ intDecimal t.gas_limit
          ++ ", " ++ jsonStr "memo" ++ ": " ++ jsonOptStr t.memo
          ++ ", " ++ jsonStr "nonce" ++ ": " ++ intDecimal t.nonce
          ++ ", " ++ jsonStr "reads" ++ ": " ++ jsonStrList t.reads
          ++ ", " ++ jsonStr "recipient" ++ ": " ++ jsonStr t.recipient
          ++ ", " ++ jsonStr "sender" ++ ": " ++ jsonStr t.sender
          ++ ", " ++ jsonStr "sender_public_key" ++ ": "
          ++ jsonStr t.sender_public_key
          ++ ", " ++ jsonStr "writes" ++ ": " ++ jsonStrList t.writes
          ++ "\x7d"
    ∧ (∀ s1 s2, SdkTransaction.hash c { t with signature := s1 }
        = SdkTransaction.hash c { t with signature := s2 })
    ∧ (∀ a : Int, 0 ≤ a → a < 10 → (intDecimal a).length = 1)
    ∧ (∀ a : Int, 10 ≤ a → 2 ≤ (intDecimal a).length) := by
  refine ⟨?_, leBytes_length 8 _, leBytes_length 4 _,
    fun i hi => leBytes_getD 8 _ i hi, fun i hi => leBytes_getD 4 _ i hi,
    fun s h s2 h2 => serialize_ignores_sig_hash tx s h s2 h2,
    rfl, fun s1 s2 => rfl, ?_, ?_⟩
  · rw [serialize, if_pos]
    exact ⟨hv0, hv, hn0, hn⟩
  · intro a h0 h10
    rw [intDecimal, if_neg (by omega)]
    exact natDecimal_length_one a.toNat (by omega)
  · intro a h10
    rw [intDecimal, if_neg (by omega)]
    exact natDecimal_length_ge_two a.toNat (by omega)

/-- Witness for C1's amended statement: the layout of a concrete
`aether` serialization, and the concrete decimal widths of the
`aether_sdk` amounts 5 and 1000. -/
theorem claim1_two_codecs_witness :
    serialize { from_addr := "0xab", toAddr := "0xcd", value := 1000,
                data := none, nonce := 0 : ATransaction }
      = some (strBytes "0xab" ++ strBytes "0xcd" ++ leBytes 8 1000 ++ []
          ++ leBytes 4 0)
    ∧ (intDecimal 5).length = 1
    ∧ 2 ≤ (intDecimal 1000).length := by
  have h := claim1_two_codecs
    { from_addr := "0xab", toAddr := "0xcd", value := 1000, data := none,
      nonce := 0 }
    toyCrypto sdkTxAmount5
    (by decide) (by decide) (by decide) (by decide)
  exact ⟨h.1, h.2.2.2.2.2.2.2.2.1 5 (by decide) (by decide),
    h.2.2.2.2.2.2.2.2.2 1000 (by decide)⟩

/-- C2 counterexample: a VCR whose `job_id` differs from the job's id is
not rejected locally — `verify_vcr` still invokes the external
`ai_verifyVCR` RPC and returns whatever the external verifier says
(here: full acceptance). -/
theorem claim2_counterexample :
    fixtureVcr.job_id ≠ fixtureCompletedJob.id
    ∧ verify_vcr acceptingVerifier fixtureVcr
      = (["ai_verifyVCR"], acceptingVerifier fixtureVcr) :=
  ⟨by decide, rfl⟩

/-- C2 amended: `verify_vcr` performs no local cross-check at all — even
for a VCR whose `job_id` differs from the job under test it makes
exactly one `ai_verifyVCR` RPC call and returns the external verdict
unchanged. -/
theorem claim2_always_forwards {α : Type}
    (oracle : VerifiableComputeReceipt → α) (job : AIJob)
    (vcr : VerifiableComputeReceipt) (_hmismatch : vcr.job_id ≠ job.id) :
    verify_vcr oracle vcr = (["ai_verifyVCR"], oracle vcr) := rfl

/-- Witness for C2's amended statement at a concrete mismatched pair. -/
theorem claim2_witness :
    verify_vcr acceptingVerifier fixtureVcr
      = (["ai_verifyVCR"], acceptingVerifier fixtureVcr) :=
  claim2_always_forwards acceptingVerifier fixtureCompletedJob fixtureVcr
    (by decide)

/-- C3 counterexample: a job-completion wait whose first probe reports
the job as not found raises the not-found `ValueError` immediately —
even though the very next probe would have found a completed job — so a
not-found probe is not treated as still-pending in the job wait. -/
theorem claim3_counterexample :
    wait_for_job_completion
        (fun k => if k = 0 then none else some fixtureCompletedJob) 10 1
      = .error .jobNotFound := rfl

/-- C3 amended: the two waits disagree on a not-found probe while the
deadline has not passed — the transaction wait treats a `None` receipt
as still-pending (it sleeps and probes again at the next iteration),
while the job wait raises the not-found error immediately. -/
theorem claim3_not_found_split (probeR : Nat → Option TransactionReceipt)
    (probeJ : Nat → Option AIJob) (t p fuel k : Nat) (hk : k * p < t)
    (hR : probeR k = none) (hJ : probeJ k = none) :
    waitTxAux probeR t p (fuel + 1) k = waitTxAux probeR t p fuel (k + 1)
    ∧ waitJobAux probeJ t p fuel k = .error .jobNotFound := by
  constructor
  · rw [waitTxAux_succ, if_pos hk, hR]
  · cases fuel with
    | zero => rw [waitJobAux_zero, if_pos hk, hJ]
    | succ f => rw [waitJobAux_succ, if_pos hk, hJ]

/-- Witness for C3's amended statement at concrete probes. -/
theorem claim3_witness :
    waitTxAux (fun _ => none) 10 1 4 0 = waitTxAux (fun _ => none) 10 1 3 1
    ∧ waitJobAux (fun _ => none) 10 1 3 0 = .error .jobNotFound :=
  claim3_not_found_split (fun _ => none) (fun _ => none) 10 1 3 0
    (by decide) rfl rfl

/-- C4: a job wait that observes the `challenged` status while the
deadline has not passed raises the challenged error right at that
observation (whatever timeout remains), and that error kind is distinct
from the timeout error. -/
theorem claim4_challenged_immediate (probe : Nat → Option AIJob)
    (t p j : Nat) (job : AIJob) (hp : 0 < p) (hjt : j * p < t)
    (hbefore : ∀ i, i < j → ∃ jb, probe i = some jb
        ∧ statusDone jb.status = false ∧ jb.status ≠ .challenged)
    (hj : probe j = some job) (hch : job.status = .challenged) :
    wait_for_job_completion probe t p = .error .challenged
    ∧ WaitError.challenged ≠ WaitError.timeout := by
  refine ⟨?_, by decide⟩
  have hjle : j ≤ t := by
    have h1 : j * 1 ≤ j * p := Nat.mul_le_mul_left j hp
    omega
  exact waitJobAux_first_challenged probe t p j t 0 hjle
    (by simpa using hjt) (fun i _ hij => hbefore i (by omega)) job
    (by simpa using hj) hch

/-- Witness for C4: a probe that is computing once, then challenged. -/
theorem claim4_witness :
    wait_for_job_completion
        (fun k => if k = 0 then some fixtureComputingJob
                  else some fixtureChallengedJob) 10 2
      = .error .challenged
    ∧ WaitError.challenged ≠ WaitError.timeout :=
  claim4_challenged_immediate
    (fun k => if k = 0 then some fixtureComputingJob
              else some fixtureChallengedJob)
    10 2 1 fixtureChallengedJob (by decide) (by decide)
    (fun i hi => by
      have hi0 : i = 0 := by omega
      subst hi0
      exact ⟨fixtureComputingJob, rfl, by decide, by decide⟩)
    rfl (by decide)

/-- C5: for every positive timeout and poll interval, if every probe
reports a still-pending state (no receipt for the transaction wait, a
live non-terminal non-challenged job for the job wait), both waits
terminate with the timeout error. -/
theorem claim5_timeout_termination (t p : Nat)
    (probeR : Nat → Option TransactionReceipt)
    (probeJ : Nat → Option AIJob) (_ht : 0 < t) (_hp : 0 < p)
    (hR : ∀ k, probeR k = none)
    (hJ : ∀ k, ∃ job, probeJ k = some job
        ∧ statusDone job.status = false ∧ job.status ≠ .challenged) :
    wait_for_transaction probeR t p = .error .timeout
    ∧ wait_for_job_completion probeJ t p = .error .timeout :=
  ⟨waitTxAux_pending probeR t p hR t 0, waitJobAux_pending probeJ t p hJ t 0⟩

/-- Witness for C5: forever-pending probes at timeout 5, interval 2. -/
theorem claim5_witness :
    wait_for_transaction (fun _ => none) 5 2 = .error .timeout
    ∧ wait_for_job_completion (fun _ => some fixtureComputingJob) 5 2
      = .error .timeout :=
  claim5_timeout_termination 5 2 (fun _ => none)
    (fun _ => some fixtureComputingJob) (by decide) (by decide)
    (fun _ => rfl)
    (fun _ => ⟨fixtureComputingJob, rfl, by decide, by decide⟩)

/-- C6: under the Ed25519 library contract for the keypair in use (the
library verifies its own signatures, and signatures are byte strings),
every transaction `TransactionBuilder.sign` emits has
`hash = "0x" ++ hex (sha256 (serialize (fields sans signature/hash)))`,
and its signature verifies against those digest bytes under the
keypair's public key via `Keypair.verify`. -/
theorem claim6_signed_tx_invariant (c : Crypto) (kp : Keypair)
    (b : TransactionBuilder) (tx : ATransaction)
    (hverify : ∀ m, c.edVerify kp.public m (c.edSign kp.secret m) = true)
    (hsigbytes : ∀ m, ∀ x ∈ c.edSign kp.secret m, x < 256)
    (hsign : TransactionBuilder.sign c b kp = .ok tx) :
    ∃ txBytes,
      serialize { tx with signature := none, hash := none } = some txBytes
      ∧ tx.hash = some ("0x" ++ bytesToHex (c.sha256 txBytes))
      ∧ ∃ sig, tx.signature = some sig
          ∧ keypairVerify c sig (c.sha256 txBytes) kp.public = true := by
  unfold TransactionBuilder.sign at hsign
  split at hsign
  next e heq => exact absurd hsign (by simp)
  next tx0 heq =>
    split at hsign
    next heq2 => exact absurd hsign (by simp)
    next txBytes heq2 =>
      simp only [Except.ok.injEq] at hsign
      subst hsign
      refine ⟨txBytes, heq2, rfl,
        keypairSign c kp (c.sha256 txBytes), rfl, ?_⟩
      have h1 : hexToBytes
          (bytesToHex (c.edSign kp.secret (c.sha256 txBytes)))
            = some (c.edSign kp.secret (c.sha256 txBytes)) :=
        hexToBytes_bytesToHex _ (hsigbytes (c.sha256 txBytes))
      show (match hexToBytes
          (bytesToHex (c.edSign kp.secret (c.sha256 txBytes))) with
        | none => false
        | some s => c.edVerify kp.public (c.sha256 txBytes) s) = true
      rw [h1]
      exact hverify (c.sha256 txBytes)

/-- Witness for C6: the toy crypto instance, the fixture builder and the
transaction it emits. -/
theorem claim6_witness :
    ∃ txBytes,
      serialize { fixtureSignedTx with signature := none, hash := none }
        = some txBytes
      ∧ fixtureSignedTx.hash
          = some ("0x" ++ bytesToHex (toyCrypto.sha256 txBytes))
      ∧ ∃ sig, fixtureSignedTx.signature = some sig
          ∧ keypairVerify toyCrypto sig (toyCrypto.sha256 txBytes)
              toyKeypair.public = true :=
  claim6_signed_tx_invariant toyCrypto toyKeypair fixtureBuilder
    fixtureSignedTx
    (fun m => by simp [toyCrypto, toyKeypair, mkKeypair])
    (fun m x hx => by
      simp [toyCrypto, toyKeypair, mkKeypair] at hx
      rcases hx with ⟨a, _, h⟩ | ⟨a, _, h⟩ <;> omega)
    rfl

/-- C7: a builder missing a required field (recipient/`to`, amount/
`value`, or nonce) fails with the incomplete-transaction `ValueError`
naming a field that really is unset; a nonce of zero counts as set and
the build succeeds once all required fields are present; the
`aether_sdk` `TransferBuilder` likewise fails naming the unset
`recipient` or `amount`. -/
theorem claim7_incomplete_builder (b : TransactionBuilder)
    (tb : TransferBuilder) :
    ((b.bto = none ∨ b.bvalue = none ∨ b.bnonce = none) →
      ∃ e, b.build = .error e ∧ errorNamesUnsetField b e)
    ∧ (∀ f t v, b.bfrom = some f → b.bto = some t → b.bvalue = some v →
        b.bnonce = some 0 →
        b.build = .ok { from_addr := f, toAddr := t, value := v,
                        data := b.bdata, nonce := 0 })
    ∧ (tb.recipient = none → ∀ s pk sig n,
        tb.build s pk sig n = .error "recipient not set")
    ∧ (∀ r, tb.recipient = some r → tb.amount = none → ∀ s pk sig n,
        tb.build s pk sig n = .error "amount not set") := by
  refine ⟨?_, ?_, ?_, ?_⟩
  · intro hmiss
    cases hf : b.bfrom with
    | none => exact ⟨.missingFrom, by simp [TransactionBuilder.build, hf], hf⟩
    | some f =>
      cases ht : b.bto with
      | none =>
          exact ⟨.missingTo, by simp [TransactionBuilder.build, hf, ht], ht⟩
      | some t =>
        cases hv : b.bvalue with
        | none =>
            exact ⟨.missingValue,
              by simp [TransactionBuilder.build, hf, ht, hv], hv⟩
        | some v =>
          cases hn : b.bnonce with
          | none =>
              exact ⟨.missingNonce,
                by simp [TransactionBuilder.build, hf, ht, hv, hn], hn⟩
          | some n => rcases hmiss with h | h | h <;> simp_all
  · intro f t v hf ht hv hn
    simp [TransactionBuilder.build, hf, ht, hv, hn]
  · intro hr s pk sig n
    simp [TransferBuilder.build, hr]
  · intro r hr ha s pk sig n
    simp [TransferBuilder.build, hr, ha]

/-- Witness for C7: a builder lacking only the recipient errors naming
it; the complete fixture builder with nonce zero builds; an empty
`TransferBuilder` errors naming the recipient. -/
theorem claim7_witness :
    (∃ e, TransactionBuilder.build
        { bfrom := some "0xab", bto := none, bvalue := some 5,
          bnonce := some 0 } = .error e
      ∧ errorNamesUnsetField
          { bfrom := some "0xab", bto := none, bvalue := some 5,
            bnonce := some 0 } e)
    ∧ TransactionBuilder.build fixtureBuilder
        = .ok { from_addr := "0xab", toAddr := "0xcd", value := 5,
                data := none, nonce := 0 }
    ∧ TransferBuilder.build fixtureTransferBuilder "0x01" "0x02" "0x03" 0
        = .error "recipient not set" :=
  ⟨(claim7_incomplete_builder
      { bfrom := some "0xab", bto := none, bvalue := some 5,
        bnonce := some 0 }
      fixtureTransferBuilder).1 (Or.inl rfl),
   (claim7_incomplete_builder fixtureBuilder fixtureTransferBuilder).2.1
      "0xab" "0xcd" 5 rfl rfl rfl rfl,
   (claim7_incomplete_builder fixtureBuilder fixtureTransferBuilder).2.2.1
      rfl "0x01" "0x02" "0x03" 0⟩

/-- C8 counterexample: the `aether_sdk` validation rejects a zero
amount — `ensure_positive_int` raises for `amount = 0` — contradicting
the claim that a zero amount is accepted as non-negative. -/
theorem claim8_counterexample :
    mkTransaction sdkArgsZeroAmount = .error "amount must be positive" :=
  rfl

/-- C8 amended: a build may succeed only when amount, fee and gas limit
are strictly positive: a non-positive (negative or zero) amount is
rejected before any encoding, and any constructed transaction had
strictly positive amount, fee and gas limit. -/
theorem claim8_strict_positivity (a tx : SdkTransaction) :
    (a.amount ≤ 0 → ∃ e, mkTransaction a = .error e)
    ∧ (mkTransaction a = .ok tx →
        0 < a.amount ∧ 0 < a.fee ∧ 0 < a.gas_limit) := by
  constructor
  · intro hneg
    cases hmk : mkTransaction a with
    | error e => exact ⟨e, rfl⟩
    | ok tx2 =>
        obtain ⟨hamt, -, -, -, -⟩ := mkTransaction_ok_inv a tx2 hmk
        omega
  · intro hok
    obtain ⟨hamt, hfee, hgas, -, -⟩ := mkTransaction_ok_inv a tx hok
    exact ⟨hamt, hfee, hgas⟩

/-- Witness for C8's amended statement: a negative amount is rejected,
and a successfully constructed transaction had positive amount, fee and
gas limit. -/
theorem claim8_witness :
    (∃ e, mkTransaction sdkArgsNegAmount = .error e)
    ∧ (0 < sdkArgsValid.amount ∧ 0 < sdkArgsValid.fee
        ∧ 0 < sdkArgsValid.gas_limit) :=
  ⟨(claim8_strict_positivity sdkArgsNegAmount sdkArgsNegAmount).1
      (by decide),
   (claim8_strict_positivity sdkArgsValid sdkTxValid).2 rfl⟩

/-- C9: for every keypair built from a secret key (as `generate`,
`from_secret_key` and `from_seed` all do) and every message, under the
Ed25519 library contract (the library verifies its own signatures and
emits byte-string signatures), `Keypair.verify` accepts
`Keypair.sign`'s output for that message and public key. -/
theorem claim9_sign_verify_roundtrip (c : Crypto) (sk m : List Nat)
    (hcorrect : ∀ sk2 m2,
      c.edVerify (c.derivePub sk2) m2 (c.edSign sk2 m2) = true)
    (hbytes : ∀ sk2 m2, ∀ x ∈ c.edSign sk2 m2, x < 256) :
    keypairVerify c (keypairSign c (mkKeypair c sk) m) m
      (mkKeypair c sk).public = true := by
  have h1 : hexToBytes (bytesToHex (c.edSign sk m)) = some (c.edSign sk m) :=
    hexToBytes_bytesToHex _ (hbytes sk m)
  show (match hexToBytes (bytesToHex (c.edSign sk m)) with
        | none => false
        | some s => c.edVerify (c.derivePub sk) m s) = true
  rw [h1]
  exact hcorrect sk m

/-- Witness for C9 under the toy crypto instance. -/
theorem claim9_witness :
    keypairVerify toyCrypto
        (keypairSign toyCrypto (mkKeypair toyCrypto [1, 2, 3]) [10, 20])
        [10, 20] (mkKeypair toyCrypto [1, 2, 3]).public = true :=
  claim9_sign_verify_roundtrip toyCrypto [1, 2, 3] [10, 20]
    (fun sk2 m2 => by simp [toyCrypto])
    (fun sk2 m2 x hx => by
      simp [toyCrypto] at hx
      rcases hx with ⟨a, _, h⟩ | ⟨a, _, h⟩ <;> omega)

/-- C10: every successfully constructed `aether_sdk` transaction has a
non-empty `writes` list, and when the `writes` argument was empty the
constructed list is exactly `[recipient]`. -/
theorem claim10_writes_nonempty (a tx : SdkTransaction)
    (h : mkTransaction a = .ok tx) :
    tx.writes ≠ [] ∧ (a.writes = [] → tx.writes = [a.recipient]) := by
  obtain ⟨-, -, -, hne, hw⟩ := mkTransaction_ok_inv a tx h
  exact ⟨hne, hw⟩

/-- Witness for C10 at the concrete valid construction (whose `writes`
argument is empty). -/
theorem claim10_witness :
    sdkTxValid.writes ≠ []
    ∧ (sdkArgsValid.writes = [] →
        sdkTxValid.writes = [sdkArgsValid.recipient]) :=
  claim10_writes_nonempty sdkArgsValid sdkTxValid rfl

end Aether
